/-
Verification of the AI_Virtual_Attendee repository (src/main.py,
src/audio_stream.py, src/gemini_session.py, src/logger.py,
src/screen_capture.py) against its natural-language specification.

The Python code is shallowly embedded: pure computations become Lean
functions, stateful objects become explicit state records, and Python
exceptions become `Except` results (or a `State × Option Err` pair where
the partially mutated state at the point of the raise matters).
-/
import Mathlib

namespace Attendee

/-! ## Errors

Python exception kinds that the embedded code can raise. -/

inductive Err where
  /-- PortAudio `IOError` raised by `Stream.stop_stream` on a stream whose
      underlying PortAudio stream has already been closed. -/
  | streamClosed
  /-- Python `ValueError` raised by `file.write` on a closed file object. -/
  | closedFile
  /-- Error raised by the underlying Live API channel
      (`send_realtime_input` / `__aexit__`). -/
  | channelErr
  /-- Error raised by screen capture or by the resampling pipeline inside a
      producer-loop iteration. -/
  | captureErr
  /-- Python `ValueError` raised by `scipy.signal.resample` when the input
      block or the requested output length is zero (zero-length FFT). -/
  | valueErr
  deriving DecidableEq, Repr

/-! ## AudioStream (src/audio_stream.py) -/

/-- `AudioStream.TARGET_RATE = 16000` (Gemini expects 16 kHz). -/
def TARGET_RATE : Nat := 16000

/-- `AudioStream.CHUNK = 1024` samples per chunk at native rate. -/
def CHUNK : Nat := 1024

/-- `AudioStream.RATE = AudioStream.TARGET_RATE` (backwards-compat alias set
    at module level in src/audio_stream.py). -/
def RATE : Nat := TARGET_RATE

/-- The pyaudio `Stream` object held by an `AudioStream`.  `isOpen` is false
    once `close()` has run; PortAudio raises `IOError` from `stop_stream` on
    a closed stream. -/
structure PAStream where
  isOpen : Bool
  deriving DecidableEq, Repr

/-- State of an `AudioStream` object: `stream` is `self.stream`
    (`none` = Python `None`), `running` is `self.running`, `native_rate` is
    `self.native_rate`, and `paTerminated` records whether
    `self.pa.terminate()` has run. -/
structure AudioState where
  stream : Option PAStream
  running : Bool
  native_rate : Nat
  paTerminated : Bool
  deriving DecidableEq, Repr

/-- `num_samples = int(len(samples) * self.TARGET_RATE / self.native_rate)`
    from `AudioStream.read_chunk`.  Python computes a float quotient and
    truncates with `int()`; for the sample counts (≤ 1024) and device rates
    involved, the double-precision quotient truncates to the same value as
    exact rational truncation, which for nonnegative operands is Nat floor
    division. -/
def num_samples (len native : Nat) : Nat :=
  len * TARGET_RATE / native

/-- The sample values `scipy.signal.resample` produces in its non-degenerate
    case.  The claims depend only on the output length (exactly `num`
    samples), so the values are modelled by nearest-index sampling. -/
def resample_values (xs : List Int) (num : Nat) : List Int :=
  (List.range num).map (fun i => xs.getD (i * xs.length / num) 0)

/-- `scipy.signal.resample(samples, num)`: a band-limited (FFT) resampler.
    It raises `ValueError` when the input block is empty (zero-length
    forward FFT) or when `num = 0` (zero-length inverse FFT); otherwise it
    returns exactly `num` samples. -/
def resample (xs : List Int) (num : Nat) : Except Err (List Int) :=
  if xs.length = 0 ∨ num = 0 then .error .valueErr
  else .ok (resample_values xs num)

/-- `AudioStream.read_chunk`.  `data` is the block of 16-bit samples the
    device delivers for this read (`self.stream.read(self.CHUNK, ...)`).
    Returns `b""` when the stream is unopened (`self.stream` is `None`) or
    not running; resamples when `native_rate != TARGET_RATE` (propagating
    scipy's `ValueError` in the degenerate cases, which nothing catches
    here); otherwise returns the data unchanged. -/
def read_chunk (st : AudioState) (data : List Int) : Except Err (List Int) :=
  if st.stream.isNone || !st.running then .ok []
  else if st.native_rate ≠ TARGET_RATE then
    resample data (num_samples data.length st.native_rate)
  else .ok data

/-- `AudioStream.stop`: sets `self.running = False`; if `self.stream` is
    set, calls `stop_stream()` (raises `IOError` when the stream is already
    closed, in which case `close()` and `terminate()` never run), then
    `close()` and `self.pa.terminate()`.  The returned state is the object
    state at exit, paired with the propagating exception, if any. -/
def AudioStream.stop (a : AudioState) : AudioState × Option Err :=
  let a := { a with running := false }
  match a.stream with
  | none => ({ a with paTerminated := true }, none)
  | some s =>
    if s.isOpen then
      ({ a with stream := some { isOpen := false }, paTerminated := true }, none)
    else
      (a, some .streamClosed)

/-- Nearest-integer rounding of the rational `p / q`, as a Nat
    (ties round up).  Used only to state the spec's `round(...)` bound. -/
def roundDiv (p q : Nat) : Nat :=
  (2 * p + q) / (2 * q)

/-! ## GeminiSession (src/gemini_session.py) -/

/-- A media payload forwarded to the Live API channel by
    `send_realtime_input`. -/
inductive Media where
  /-- `types.Blob(mime_type="image/jpeg", data=base64_jpeg)`. -/
  | frame (jpeg : String)
  /-- `types.Blob(mime_type="audio/pcm", data=pcm_data)`. -/
  | audioChunk (pcm : List Int)
  deriving DecidableEq, Repr

/-- State of a `GeminiSession` object.  `session` is the truthiness of
    `self.session` (set on connect, never cleared), `running` is
    `self.running`, `hasCtx` is `hasattr(self, '_session_ctx') and
    self._session_ctx`, `ctxExited` records that `__aexit__` completed,
    `sent` is the sequence of payloads forwarded to the channel.
    `aexitRaises` and `chanRaises` model whether the underlying channel
    raises from `__aexit__` / `send_realtime_input`. -/
structure GemState where
  session : Bool
  running : Bool
  hasCtx : Bool
  ctxExited : Bool
  aexitRaises : Bool
  chanRaises : Bool
  sent : List Media
  deriving DecidableEq, Repr

/-- `self.session.send_realtime_input(media=...)`: the channel call made by
    `send_frame` / `send_audio` once the guard has passed; may raise. -/
def channel_send (g : GemState) (m : Media) : Except Err GemState :=
  if g.chanRaises then .error .channelErr
  else .ok { g with sent := g.sent ++ [m] }

/-- `GeminiSession.send_frame`: forwards the JPEG blob only when
    `self.session and self.running`; otherwise falls through (no-op). -/
def send_frame (g : GemState) (jpeg : String) : Except Err GemState :=
  if g.session && g.running then channel_send g (.frame jpeg)
  else .ok g

/-- `GeminiSession.send_audio`: forwards the PCM blob only when
    `self.session and self.running`; otherwise falls through (no-op). -/
def send_audio (g : GemState) (pcm : List Int) : Except Err GemState :=
  if g.session && g.running then channel_send g (.audioChunk pcm)
  else .ok g

/-- `await self._session_ctx.__aexit__(None, None, None)`: may raise. -/
def ctx_aexit (g : GemState) : Except Err GemState :=
  if g.aexitRaises then .error .channelErr
  else .ok { g with ctxExited := true }

/-- `GeminiSession.disconnect`: sets `self.running = False`; if
    `_session_ctx` exists it calls `__aexit__` inside
    `try ... except Exception: pass`, so the function itself never
    raises (total return type). -/
def disconnect (g : GemState) : GemState :=
  let g := { g with running := false }
  if g.hasCtx then
    match ctx_aexit g with
    | .ok g2 => g2
    | .error _ => g
  else g

/-! ### Response-text extraction (`GeminiSession.listen_for_responses`) -/

/-- A `Part` of a model turn; `text` is `None` or a string. -/
structure Part where
  text : Option String
  deriving DecidableEq, Repr

/-- The `output_transcription` object; its `text` field may be `None`. -/
structure Transcription where
  text : Option String
  deriving DecidableEq, Repr

/-- The `server_content` object: `model_turn` (`none` = absent/falsy) with
    its list of parts, and `output_transcription` (`none` = absent/falsy). -/
structure ServerContent where
  model_turn : Option (List Part)
  output_transcription : Option Transcription
  deriving DecidableEq, Repr

/-- An inbound Live API event: `text` is the direct `response.text`
    attribute (`none` = absent or `None`), `server_content` the
    `response.server_content` object. -/
structure LiveResponse where
  text : Option String
  server_content : Option ServerContent
  deriving DecidableEq, Repr

/-- Python truthiness of an optional string: present and non-empty. -/
def truthy : Option String → Bool
  | some s => !s.isEmpty
  | none => false

/-- The `for part in sc.model_turn.parts` loop: takes the first part whose
    `text` attribute is truthy, then breaks. -/
def firstTextPart : List Part → Option String
  | [] => none
  | p :: ps => if truthy p.text then p.text else firstTextPart ps

/-- The inner `if sc.model_turn:` scan of `listen_for_responses`: the first
    truthy text part of the model turn, `none` when `model_turn` is absent
    or no part matches. -/
def model_turn_text (sc : ServerContent) : Option String :=
  match sc.model_turn with
  | some parts => firstTextPart parts
  | none => none

/-- The per-event extraction in `listen_for_responses`: `text = None`; if
    `response.text` is truthy take it; `elif response.server_content`: scan
    `model_turn` parts for a truthy text, then — in a separate `if`, not an
    `elif` — when `output_transcription` is present assign
    `text = sc.output_transcription.text` (overwriting any part match).
    Finally the callback fires only `if text:`; the result is the argument
    passed to the callback (`none` = no callback). -/
def extract_text (r : LiveResponse) : Option String :=
  let text : Option String :=
    if truthy r.text then r.text
    else
      match r.server_content with
      | none => none
      | some sc =>
        match sc.output_transcription with
        | some tr => tr.text
        | none => model_turn_text sc
  if truthy text then text else none

/-- The extraction as the spec words it: direct text field if present and
    non-empty, else the first non-empty text part of the model turn, else
    the output-transcription text — first match wins, remaining fields
    ignored.  Written from the spec sentence, for comparison with
    `extract_text` (which is written from the code). -/
def extract_text_spec (r : LiveResponse) : Option String :=
  if truthy r.text then r.text
  else
    match r.server_content with
    | none => none
    | some sc =>
      if truthy (model_turn_text sc) then model_turn_text sc
      else
        match sc.output_transcription with
        | some tr => if truthy tr.text then tr.text else none
        | none => none

/-! ## FeedbackLogger (src/logger.py) -/

/-- A line written to the log file by `FeedbackLogger._log` (timestamps are
    presentation only and are not modelled).  `log_stats` writes the four
    stats lines in order. -/
inductive Line where
  | msg (s : String)
  | statsHeader
  | statsFrames (n : Nat)
  | statsAudio (secs : Rat)
  | statsResponses (n : Nat)
  deriving DecidableEq, Repr

/-- State of a `FeedbackLogger`: `fileOpen` is whether `self.file` is open,
    `lines` the content written so far, `response_count` is
    `self.response_count`. -/
structure LoggerState where
  fileOpen : Bool
  lines : List Line
  response_count : Nat
  deriving DecidableEq, Repr

/-- `FeedbackLogger._log`: `self.file.write(...)` then `flush()`.  Writing
    to a closed file object raises `ValueError` and appends nothing. -/
def logLine (l : LoggerState) (ln : Line) : Except Err LoggerState :=
  if l.fileOpen then .ok { l with lines := l.lines ++ [ln] }
  else .error .closedFile

/-- `FeedbackLogger.log_stats`: writes the stats header, the frame count,
    the audio duration and the response count, each via `_log`; the first
    raising write aborts the rest. -/
def log_stats (l : LoggerState) (frames_sent : Nat) (audio_seconds : Rat) :
    Except Err LoggerState :=
  match logLine l .statsHeader with
  | .error e => .error e
  | .ok l1 =>
    match logLine l1 (.statsFrames frames_sent) with
    | .error e => .error e
    | .ok l2 =>
      match logLine l2 (.statsAudio audio_seconds) with
      | .error e => .error e
      | .ok l3 => logLine l3 (.statsResponses l3.response_count)

/-- `FeedbackLogger.close`: `self.file.close()` — closing an already-closed
    Python file object is a no-op, never an error. -/
def FeedbackLogger.close (l : LoggerState) : LoggerState :=
  { l with fileOpen := false }

/-! ## WorkshopAttendee (src/main.py) -/

/-- `WorkshopAttendee.FRAME_INTERVAL = 0.4` seconds, in milliseconds. -/
def FRAME_INTERVAL_MS : Nat := 400

/-- The audio-duration expression computed in `WorkshopAttendee.shutdown`:
    `(self.audio_chunks_sent * AudioStream.CHUNK) / (AudioStream.RATE * 2)`
    (exact rational arithmetic; the Python floats involved are exact for
    these magnitudes). -/
def audio_seconds (audio_chunks_sent : Nat) : Rat :=
  (audio_chunks_sent * CHUNK : Nat) / ((RATE : Rat) * 2)

/-- The audio duration as the spec words it:
    `audio_seconds = audio_chunks_sent * chunk_size_samples / target_rate`.
    Written from the spec sentence, for comparison with `audio_seconds`
    (which is written from the code). -/
def audio_seconds_spec (audio_chunks_sent : Nat) : Rat :=
  (audio_chunks_sent * CHUNK : Nat) / (TARGET_RATE : Rat)

/-- State of the whole `WorkshopAttendee` object together with its
    components. -/
structure World where
  running : Bool
  frames_sent : Nat
  audio_chunks_sent : Nat
  audio : AudioState
  gemini : GemState
  logger : LoggerState
  deriving DecidableEq, Repr

/-- `WorkshopAttendee.shutdown`: sets `self.running = False`, then runs
    `self.audio.stop()`, `await self.gemini.disconnect()`, computes
    `audio_seconds`, `self.logger.log_stats(...)`, `self.logger.close()`
    in order, with no `try`/`finally`: the first step that raises aborts
    the remaining steps and the exception propagates.  Returns the object
    state at exit paired with the propagating exception, if any. -/
def shutdown (w : World) : World × Option Err :=
  let w := { w with running := false }
  match AudioStream.stop w.audio with
  | (a, some e) => ({ w with audio := a }, some e)
  | (a, none) =>
    let w := { w with audio := a, gemini := disconnect w.gemini }
    match log_stats w.logger w.frames_sent (audio_seconds w.audio_chunks_sent) with
    | .error e => (w, some e)
    | .ok l => ({ w with logger := FeedbackLogger.close l }, none)

/-! ### Producer loops (`_screen_loop` / `_audio_loop`) -/

/-- State threaded through `WorkshopAttendee._screen_loop`: the
    orchestrator's `running` flag and `frames_sent` counter, the frames
    forwarded so far, and the sleeps performed (milliseconds). -/
structure ScreenState where
  running : Bool
  frames_sent : Nat
  sent : List String
  pauses : List Nat
  deriving DecidableEq, Repr

/-- One iteration's environment for the screen loop: either capture and
    send succeed, producing a frame, or some step of the `try` body raises. -/
inductive ScreenEvent where
  | ok (frame : String)
  | err
  deriving DecidableEq, Repr

/-- The `try` body of one `_screen_loop` iteration: capture a frame, send
    it, increment `frames_sent`, sleep `FRAME_INTERVAL`. -/
def screen_body (s : ScreenState) (e : ScreenEvent) : Except Err ScreenState :=
  match e with
  | .ok f =>
    .ok { s with frames_sent := s.frames_sent + 1, sent := s.sent ++ [f],
                 pauses := s.pauses ++ [FRAME_INTERVAL_MS] }
  | .err => .error .captureErr

/-- One full `_screen_loop` iteration: the `try` body with its
    `except Exception` handler, which prints and sleeps 1 s (1000 ms)
    before the loop retries.  Total: no exception escapes an iteration. -/
def screen_step (s : ScreenState) (e : ScreenEvent) : ScreenState :=
  match screen_body s e with
  | .ok s2 => s2
  | .error _ => { s with pauses := s.pauses ++ [1000] }

/-- `_screen_loop`: `while self.running:` over a finite trace of
    iteration environments. -/
def screen_loop (s : ScreenState) : List ScreenEvent → ScreenState
  | [] => s
  | e :: es => if s.running then screen_loop (screen_step s e) es else s

/-- State threaded through `WorkshopAttendee._audio_loop`. -/
structure AudioLoopState where
  running : Bool
  audio_chunks_sent : Nat
  sent : List (List Int)
  pauses : List Nat
  deriving DecidableEq, Repr

/-- One iteration's environment for the audio loop: either
    `self.audio.read_chunk` returns a chunk (possibly empty) and the send
    succeeds, or some step of the `try` body raises. -/
inductive AudioEvent where
  | ok (chunk : List Int)
  | err
  deriving DecidableEq, Repr

/-- The `try` body of one `_audio_loop` iteration: read a chunk; `if chunk:`
    send it and increment `audio_chunks_sent`; an empty chunk does
    nothing. -/
def audio_body (a : AudioLoopState) (e : AudioEvent) : Except Err AudioLoopState :=
  match e with
  | .ok chunk =>
    if chunk.isEmpty then .ok a
    else .ok { a with audio_chunks_sent := a.audio_chunks_sent + 1,
                      sent := a.sent ++ [chunk] }
  | .err => .error .captureErr

/-- One full `_audio_loop` iteration: the `try` body with its
    `except Exception` handler, which prints and sleeps 0.1 s (100 ms)
    before the loop retries. -/
def audio_step (a : AudioLoopState) (e : AudioEvent) : AudioLoopState :=
  match audio_body a e with
  | .ok a2 => a2
  | .error _ => { a with pauses := a.pauses ++ [100] }

/-- `_audio_loop`: `while self.running:` over a finite trace of iteration
    environments. -/
def audio_loop (a : AudioLoopState) : List AudioEvent → AudioLoopState
  | [] => a
  | e :: es => if a.running then audio_loop (audio_step a e) es else a

/-! ## Concrete states used by witnesses and counterexamples -/

/-- An `AudioStream` running at the target rate (no resampling). -/
def audioAtTarget : AudioState :=
  { stream := some { isOpen := true }, running := true,
    native_rate := 16000, paTerminated := false }

/-- An `AudioStream` running at a 48 kHz native rate. -/
def audioAt48k : AudioState :=
  { stream := some { isOpen := true }, running := true,
    native_rate := 48000, paTerminated := false }

/-- An `AudioStream` that was never opened. -/
def audioUnopened : AudioState :=
  { stream := none, running := true, native_rate := 48000,
    paTerminated := false }

/-- A connected `GeminiSession` with a healthy channel. -/
def gemConnected : GemState :=
  { session := true, running := false, hasCtx := true, ctxExited := false,
    aexitRaises := false, chanRaises := false, sent := [] }

/-- A fresh audio-producer loop state. -/
def audioLoop0 : AudioLoopState :=
  { running := true, audio_chunks_sent := 0, sent := [], pauses := [] }

/-- A fresh screen-producer loop state. -/
def screenLoop0 : ScreenState :=
  { running := true, frames_sent := 0, sent := [], pauses := [] }

/-- An output transcription carrying the text "b". -/
def trB : Transcription := { text := some "b" }

/-- A server-content object with both a model-turn text part ("a") and an
    output transcription ("b"). -/
def scBoth : ServerContent :=
  { model_turn := some [{ text := some "a" }],
    output_transcription := some trB }

/-- An inbound event carrying no direct text but both a model-turn text part
    ("a") and an output transcription ("b"). -/
def respBoth : LiveResponse :=
  { text := none, server_content := some scBoth }

/-- A healthy running session: open audio stream, connected link, open log
    file. -/
def worldHealthy : World :=
  { running := true, frames_sent := 3, audio_chunks_sent := 2,
    audio := audioAt48k,
    gemini := { gemConnected with running := true },
    logger := { fileOpen := true, lines := [], response_count := 1 } }

/-- A session whose pyaudio stream has already been closed, so
    `AudioStream.stop` raises. -/
def worldClosedStream : World :=
  { running := true, frames_sent := 5, audio_chunks_sent := 7,
    audio := { stream := some { isOpen := false }, running := true,
               native_rate := 48000, paTerminated := false },
    gemini := { gemConnected with running := true },
    logger := { fileOpen := true, lines := [], response_count := 2 } }

/-! ## Helper lemmas -/

theorem div_le_roundDiv (p q : Nat) : p / q ≤ roundDiv p q := by
  unfold roundDiv
  have h : p / q = 2 * p / (2 * q) := (Nat.mul_div_mul_left p q two_pos).symm
  rw [h]
  exact Nat.div_le_div_right (Nat.le_add_right _ _)

theorem roundDiv_le_div_succ (p q : Nat) (hq : 0 < q) :
    roundDiv p q ≤ p / q + 1 := by
  unfold roundDiv
  have h2q : 0 < 2 * q := by omega
  have hlt : 2 * p + q < (p / q + 2) * (2 * q) := by
    have hp : p < q * (p / q) + q := by
      have := Nat.div_add_mod p q
      have := Nat.mod_lt p hq
      omega
    nlinarith
  have := (Nat.div_lt_iff_lt_mul h2q).mpr hlt
  omega

theorem resample_values_length (xs : List Int) (num : Nat) :
    (resample_values xs num).length = num := by
  simp [resample_values]

theorem disconnect_running (g : GemState) : (disconnect g).running = false := by
  unfold disconnect ctx_aexit
  by_cases hc : g.hasCtx <;> by_cases ha : g.aexitRaises <;> simp [hc, ha]

theorem screen_step_running (s : ScreenState) (e : ScreenEvent) :
    (screen_step s e).running = s.running := by
  cases e <;> simp [screen_step, screen_body]

theorem audio_step_running (a : AudioLoopState) (e : AudioEvent) :
    (audio_step a e).running = a.running := by
  cases e with
  | ok chunk => by_cases h : chunk.isEmpty <;> simp [audio_step, audio_body, h]
  | err => simp [audio_step, audio_body]

theorem screen_loop_foldl (es : List ScreenEvent) (s : ScreenState)
    (h : s.running = true) : screen_loop s es = es.foldl screen_step s := by
  induction es generalizing s with
  | nil => rfl
  | cons e es ih =>
    rw [screen_loop, if_pos h, List.foldl_cons]
    exact ih _ (by rw [screen_step_running]; exact h)

theorem audio_loop_foldl (es : List AudioEvent) (a : AudioLoopState)
    (h : a.running = true) : audio_loop a es = es.foldl audio_step a := by
  induction es generalizing a with
  | nil => rfl
  | cons e es ih =>
    rw [audio_loop, if_pos h, List.foldl_cons]
    exact ih _ (by rw [audio_step_running]; exact h)

theorem screen_loop_stopped (es : List ScreenEvent) (s : ScreenState)
    (h : s.running = false) : screen_loop s es = s := by
  cases es <;> simp [screen_loop, h]

theorem audio_loop_stopped (es : List AudioEvent) (a : AudioLoopState)
    (h : a.running = false) : audio_loop a es = a := by
  cases es <;> simp [audio_loop, h]

theorem firstTextPart_truthy (ps : List Part) :
    firstTextPart ps = none ∨ truthy (firstTextPart ps) = true := by
  induction ps with
  | nil => exact Or.inl rfl
  | cons p ps ih =>
    by_cases hp : truthy p.text = true
    · right; simp [firstTextPart, hp]
    · simpa [firstTextPart, hp] using ih

theorem model_turn_text_truthy (sc : ServerContent) :
    model_turn_text sc = none ∨ truthy (model_turn_text sc) = true := by
  unfold model_turn_text
  cases sc.model_turn with
  | none => exact Or.inl rfl
  | some parts => exact firstTextPart_truthy parts

/-! ## Claims -/

/-- Claim C5: rate conversion is the identity at equal rates — for every
    block of samples read while the stream is open and running, if
    `native_rate = TARGET_RATE` then `read_chunk` returns the input
    unchanged and raises nothing (the resampling branch is skipped). -/
theorem C5_rate_identity (st : AudioState) (data : List Int)
    (hs : st.stream.isSome = true) (hr : st.running = true)
    (heq : st.native_rate = TARGET_RATE) :
    read_chunk st data = .ok data := by
  have hn : st.stream.isNone = false := by
    cases h : st.stream with
    | none => rw [h] at hs; simp at hs
    | some s => simp [h]
  simp [read_chunk, hn, hr, heq]

/-- Witness for C5: a stream running at 16 kHz returns a concrete chunk
    unchanged. -/
theorem C5_rate_identity_witness :
    audioAtTarget.stream.isSome = true ∧ audioAtTarget.running = true ∧
    audioAtTarget.native_rate = TARGET_RATE ∧
    read_chunk audioAtTarget [3, -5, 7] = .ok [3, -5, 7] :=
  ⟨rfl, rfl, rfl, C5_rate_identity audioAtTarget [3, -5, 7] rfl rfl rfl⟩

/-- Counterexample to claim C6 as stated: at a 48 kHz native rate, an empty
    input block makes `read_chunk` raise scipy's `ValueError` (zero-length
    forward FFT) instead of yielding empty output, and a 1-sample block,
    whose computed output length `int(1 * 16000 / 48000)` is 0, makes it
    raise (zero-length inverse FFT) instead of yielding empty output. -/
theorem C6_counterexample :
    read_chunk audioAt48k [] = .error Err.valueErr ∧
    read_chunk audioAt48k [] ≠ .ok [] ∧
    num_samples 1 audioAt48k.native_rate = 0 ∧
    read_chunk audioAt48k [7] = .error Err.valueErr := by
  refine ⟨rfl, ?_, rfl, rfl⟩
  intro h
  have h2 : Except.error Err.valueErr = Except.ok ([] : List Int) := h
  exact Except.noConfusion h2

/-- Claim C6 (amended): when `native_rate ≠ TARGET_RATE` (and is positive),
    the computed output length `num_samples = int(len * TARGET_RATE /
    native_rate)` is within ±1 of the rounded rational
    `len * TARGET_RATE / native_rate`, and for a non-empty input with
    `num_samples ≠ 0` the conversion returns exactly `num_samples` samples;
    but for empty input, or when `num_samples = 0`, `scipy.signal.resample`
    raises `ValueError`, so `read_chunk` raises rather than returning empty
    output. -/
theorem C6_resample_output_length (st : AudioState) (data : List Int)
    (hs : st.stream.isSome = true) (hr : st.running = true)
    (hne : st.native_rate ≠ TARGET_RATE) (hpos : 0 < st.native_rate) :
    num_samples data.length st.native_rate
      ≤ roundDiv (data.length * TARGET_RATE) st.native_rate ∧
    roundDiv (data.length * TARGET_RATE) st.native_rate
      ≤ num_samples data.length st.native_rate + 1 ∧
    (data ≠ [] → num_samples data.length st.native_rate ≠ 0 →
      read_chunk st data
        = .ok (resample_values data (num_samples data.length st.native_rate)) ∧
      (resample_values data (num_samples data.length st.native_rate)).length
        = num_samples data.length st.native_rate) ∧
    (data = [] → read_chunk st data = .error Err.valueErr) ∧
    (num_samples data.length st.native_rate = 0 →
      read_chunk st data = .error Err.valueErr) := by
  have hn : st.stream.isNone = false := by
    cases h : st.stream with
    | none => rw [h] at hs; simp at hs
    | some s => simp [h]
  have hrc : read_chunk st data
      = resample data (num_samples data.length st.native_rate) := by
    simp [read_chunk, hn, hr, hne]
  refine ⟨?_, ?_, ?_, ?_, ?_⟩
  · simpa [num_samples] using
      div_le_roundDiv (data.length * TARGET_RATE) st.native_rate
  · simpa [num_samples] using
      roundDiv_le_div_succ (data.length * TARGET_RATE) st.native_rate hpos
  · intro hd hnum
    have hcond : ¬(data.length = 0 ∨
        num_samples data.length st.native_rate = 0) := by
      simp [List.length_eq_zero, hd, hnum]
    rw [hrc]
    unfold resample
    rw [if_neg hcond]
    exact ⟨rfl, resample_values_length _ _⟩
  · intro h; subst h; rw [hrc]; simp [resample]
  · intro h; rw [hrc]; simp [resample, h]

/-- Witness for the amended C6: at a 48 kHz native rate, a 3-sample chunk
    resamples without error to `int(3 * 16000 / 48000) = 1` sample. -/
theorem C6_resample_output_length_witness :
    audioAt48k.stream.isSome = true ∧ audioAt48k.running = true ∧
    audioAt48k.native_rate ≠ TARGET_RATE ∧ 0 < audioAt48k.native_rate ∧
    read_chunk audioAt48k [1, 2, 3]
      = .ok (resample_values [1, 2, 3] (num_samples 3 audioAt48k.native_rate)) ∧
    (resample_values [1, 2, 3] (num_samples 3 audioAt48k.native_rate)).length
      = num_samples 3 audioAt48k.native_rate ∧
    num_samples 3 audioAt48k.native_rate = 1 :=
  ⟨rfl, rfl, by decide, by decide,
   ((C6_resample_output_length audioAt48k [1, 2, 3] rfl rfl
      (by decide) (by decide)).2.2.1 (by decide) (by decide)).1,
   ((C6_resample_output_length audioAt48k [1, 2, 3] rfl rfl
      (by decide) (by decide)).2.2.1 (by decide) (by decide)).2,
   by decide⟩

/-- Claim C7: sending media on a link that is not Connected is a no-op —
    when the session object is absent or the running flag is false, both
    `send_frame` and `send_audio` return the state unchanged without
    raising; in particular a frame arriving after `disconnect` is silently
    dropped. -/
theorem C7_send_noop (g : GemState) (jpeg : String) (pcm : List Int)
    (h : g.session = false ∨ g.running = false) :
    send_frame g jpeg = .ok g ∧ send_audio g pcm = .ok g ∧
    send_frame (disconnect g) jpeg = .ok (disconnect g) ∧
    send_audio (disconnect g) pcm = .ok (disconnect g) := by
  have hg : (g.session && g.running) = false := by
    rcases h with h | h <;> simp [h]
  have hd : ((disconnect g).session && (disconnect g).running) = false := by
    simp [disconnect_running]
  exact ⟨by simp [send_frame, hg], by simp [send_audio, hg],
         by simp [send_frame, hd], by simp [send_audio, hd]⟩

/-- Witness for C7: a disconnected but once-connected session drops a frame
    and an audio chunk without error. -/
theorem C7_send_noop_witness :
    (gemConnected.session = false ∨ gemConnected.running = false) ∧
    send_frame gemConnected "j" = .ok gemConnected ∧
    send_audio gemConnected [1] = .ok gemConnected :=
  ⟨Or.inr rfl, (C7_send_noop gemConnected "j" [1] (Or.inr rfl)).1,
   (C7_send_noop gemConnected "j" [1] (Or.inr rfl)).2.1⟩

/-- Claim C8: `disconnect` is idempotent and total — it never raises (its
    body catches any `__aexit__` error), leaves the running flag false, a
    second call changes nothing, and a link that never reached Connected
    (no session context) is handled without error. -/
theorem C8_disconnect_idempotent_total (g : GemState) :
    (disconnect g).running = false ∧
    disconnect (disconnect g) = disconnect g ∧
    disconnect { g with hasCtx := false }
      = { g with hasCtx := false, running := false } ∧
    disconnect { g with aexitRaises := true }
      = { g with aexitRaises := true, running := false } := by
  refine ⟨disconnect_running g, ?_, ?_, ?_⟩
  · unfold disconnect ctx_aexit
    by_cases hc : g.hasCtx <;> by_cases ha : g.aexitRaises <;> simp [hc, ha]
  · simp [disconnect]
  · unfold disconnect ctx_aexit
    by_cases hc : g.hasCtx <;> simp [hc]

/-- Claim C9: producer failure isolation — an exception in a loop
    iteration is caught by the iteration itself (the step function is
    total), adds a 1000 ms pause in the screen loop and a 100 ms pause in
    the audio loop, preserves the running flag, and the loop processes
    every subsequent iteration while running; only `running = false` stops
    a producer. -/
theorem C9_producer_isolation (s : ScreenState) (a : AudioLoopState)
    (e : ScreenEvent) (ea : AudioEvent)
    (es : List ScreenEvent) (ts : List AudioEvent) :
    screen_step s .err = { s with pauses := s.pauses ++ [1000] } ∧
    audio_step a .err = { a with pauses := a.pauses ++ [100] } ∧
    (screen_step s e).running = s.running ∧
    (audio_step a ea).running = a.running ∧
    (s.running = true → screen_loop s es = es.foldl screen_step s) ∧
    (a.running = true → audio_loop a ts = ts.foldl audio_step a) ∧
    (s.running = false → screen_loop s es = s) ∧
    (a.running = false → audio_loop a ts = a) :=
  ⟨by simp [screen_step, screen_body], by simp [audio_step, audio_body],
   screen_step_running s e, audio_step_running a ea,
   fun h => screen_loop_foldl es s h, fun h => audio_loop_foldl ts a h,
   fun h => screen_loop_stopped es s h, fun h => audio_loop_stopped ts a h⟩

/-- Witness for C9: a running producer keeps folding over an error
    iteration instead of terminating. -/
theorem C9_producer_isolation_witness :
    screenLoop0.running = true ∧ audioLoop0.running = true ∧
    screen_loop screenLoop0 [ScreenEvent.err]
      = [ScreenEvent.err].foldl screen_step screenLoop0 ∧
    audio_loop audioLoop0 [AudioEvent.err]
      = [AudioEvent.err].foldl audio_step audioLoop0 :=
  ⟨rfl, rfl,
   (C9_producer_isolation screenLoop0 audioLoop0 .err .err
      [ScreenEvent.err] [AudioEvent.err]).2.2.2.2.1 rfl,
   (C9_producer_isolation screenLoop0 audioLoop0 .err .err
      [ScreenEvent.err] [AudioEvent.err]).2.2.2.2.2.1 rfl⟩

/-- Claim C10: reading audio with no opened stream or with the running flag
    false returns the empty byte string rather than raising, and the audio
    loop does nothing with an empty chunk — it sends nothing and leaves the
    counter unchanged. -/
theorem C10_read_chunk_empty (st : AudioState) (data : List Int)
    (a : AudioLoopState) (h : st.stream = none ∨ st.running = false) :
    read_chunk st data = .ok [] ∧ audio_step a (.ok []) = a := by
  constructor
  · rcases h with h | h <;> simp [read_chunk, h]
  · simp [audio_step, audio_body]

/-- Witness for C10: an unopened stream yields an empty chunk and the loop
    state is untouched by it. -/
theorem C10_read_chunk_empty_witness :
    (audioUnopened.stream = none ∨ audioUnopened.running = false) ∧
    read_chunk audioUnopened [9, 9] = .ok [] ∧
    audio_step audioLoop0 (.ok []) = audioLoop0 :=
  ⟨Or.inl rfl,
   (C10_read_chunk_empty audioUnopened [9, 9] audioLoop0 (Or.inl rfl)).1,
   (C10_read_chunk_empty audioUnopened [9, 9] audioLoop0 (Or.inl rfl)).2⟩

/-- Claim C1 (code bug): `WorkshopAttendee.shutdown` computes
    `(audio_chunks_sent * CHUNK) / (RATE * 2)` — half the value the claim
    (and the code's own inline comment,
    `chunks * bytes_per_chunk / (sample_rate * bytes_per_sample)`)
    requires, because it passes the per-chunk *sample* count `CHUNK = 1024`
    where a byte count (2048) belongs.  At one chunk the code reports
    4/125 = 0.032 s where the claim requires 8/125 = 0.064 s; in general
    the reported value is half the claimed one. -/
theorem C1_audio_seconds_halved :
    audio_seconds 1 = (4 : Rat) / 125 ∧
    audio_seconds_spec 1 = (8 : Rat) / 125 ∧
    audio_seconds 1 ≠ audio_seconds_spec 1 ∧
    ∀ n : Nat, audio_seconds n = audio_seconds_spec n / 2 := by
  refine ⟨?_, ?_, ?_, ?_⟩
  · norm_num [audio_seconds, CHUNK, RATE, TARGET_RATE]
  · norm_num [audio_seconds_spec, CHUNK, TARGET_RATE]
  · norm_num [audio_seconds, audio_seconds_spec, CHUNK, RATE, TARGET_RATE]
  · intro n
    simp only [audio_seconds, audio_seconds_spec, CHUNK, RATE, TARGET_RATE]
    push_cast
    rw [div_div]

/-- Counterexample to claim C2 as stated: on an event with no direct text,
    a model-turn part "a" and an output transcription "b", first-match-wins
    precedence would deliver "a", but the code delivers "b" — the
    transcription check is an `if` after the part scan, not an `elif`, so
    it overwrites the part match. -/
theorem C2_counterexample :
    extract_text respBoth = some "b" ∧
    extract_text_spec respBoth = some "a" ∧
    extract_text respBoth ≠ extract_text_spec respBoth := by
  decide

/-- Claim C2 (amended): the direct text field wins when present and
    non-empty; otherwise, within `server_content`, when no
    output-transcription object is present the first non-empty model-turn
    text part is delivered, but when an output-transcription object is
    present its text *overrides* any model-turn part match and is delivered
    iff it is itself non-empty. -/
theorem C2_extraction_precedence (r : LiveResponse) (sc : ServerContent)
    (tr : Transcription) :
    (truthy r.text = true → extract_text r = r.text) ∧
    (truthy r.text = false → r.server_content = some sc →
      sc.output_transcription = none →
      extract_text r = model_turn_text sc) ∧
    (truthy r.text = false → r.server_content = some sc →
      sc.output_transcription = some tr →
      extract_text r = if truthy tr.text then tr.text else none) := by
  refine ⟨?_, ?_, ?_⟩
  · intro ht
    simp [extract_text, ht]
  · intro ht hsc hot
    simp only [extract_text, ht, hsc, hot, Bool.false_eq_true, if_false]
    rcases model_turn_text_truthy sc with h | h
    · simp [h, truthy]
    · simp [h]
  · intro ht hsc hot
    simp [extract_text, ht, hsc, hot]

/-- Witness for the amended C2 at the concrete event: the transcription
    text "b" is delivered. -/
theorem C2_extraction_precedence_witness :
    truthy respBoth.text = false ∧
    respBoth.server_content = some scBoth ∧
    scBoth.output_transcription = some trB ∧
    extract_text respBoth = some "b" := by
  refine ⟨rfl, rfl, rfl, ?_⟩
  have h := (C2_extraction_precedence respBoth scBoth trB).2.2 rfl rfl rfl
  simpa [trB, truthy] using h

/-- Counterexample to claim C3 as stated: from a state whose pyaudio stream
    is already closed, `AudioStream.stop` raises and `shutdown` stops
    there — the link is not disconnected, no stats are written, and the
    log file stays open, contradicting "steps 3–5 run regardless". -/
theorem C3_counterexample :
    (shutdown worldClosedStream).2 = some Err.streamClosed ∧
    (shutdown worldClosedStream).1.gemini.running = true ∧
    (shutdown worldClosedStream).1.gemini.ctxExited = false ∧
    (shutdown worldClosedStream).1.logger.lines = [] ∧
    (shutdown worldClosedStream).1.logger.fileOpen = true :=
  ⟨rfl, rfl, rfl, rfl, rfl⟩

/-- Claim C3 (amended): `shutdown` runs its steps in order with no
    exception guard — whenever stopping the audio stream raises, the
    exception propagates out of `shutdown`, the running flag (cleared
    beforehand) is false, the audio state is whatever `stop` left, and the
    session link, the stats emission and the log-file close are all
    skipped (gemini and logger states unchanged). -/
theorem C3_shutdown_aborts (w : World) (e : Err)
    (h : (AudioStream.stop w.audio).2 = some e) :
    (shutdown w).2 = some e ∧
    (shutdown w).1.running = false ∧
    (shutdown w).1.audio = (AudioStream.stop w.audio).1 ∧
    (shutdown w).1.gemini = w.gemini ∧
    (shutdown w).1.logger = w.logger := by
  rcases hstop : AudioStream.stop w.audio with ⟨a, o⟩
  rw [hstop] at h
  simp only at h
  subst h
  simp [shutdown, hstop]

/-- Witness for the amended C3 at the closed-stream state. -/
theorem C3_shutdown_aborts_witness :
    (AudioStream.stop worldClosedStream.audio).2 = some Err.streamClosed ∧
    (shutdown worldClosedStream).2 = some Err.streamClosed ∧
    (shutdown worldClosedStream).1.logger = worldClosedStream.logger :=
  ⟨rfl,
   (C3_shutdown_aborts worldClosedStream Err.streamClosed rfl).1,
   (C3_shutdown_aborts worldClosedStream Err.streamClosed rfl).2.2.2.2⟩

theorem shutdown_ok_post (w : World) (h : (shutdown w).2 = none) :
    (shutdown w).1.logger.fileOpen = false ∧
    ((shutdown w).1.audio.stream = none ∨
      (shutdown w).1.audio.stream = some { isOpen := false }) := by
  rcases hstop : AudioStream.stop w.audio with ⟨a, o⟩
  cases o with
  | some e => simp [shutdown, hstop] at h
  | none =>
    have ha : a.stream = none ∨ a.stream = some { isOpen := false } := by
      rcases hs : w.audio.stream with _ | s
      · left
        simp [AudioStream.stop, hs] at hstop
        rw [← hstop]
      · by_cases hb : s.isOpen
        · right
          simp [AudioStream.stop, hs, hb] at hstop
          rw [← hstop]
        · simp [AudioStream.stop, hs, hb] at hstop
    cases hls : log_stats w.logger w.frames_sent
        (audio_seconds w.audio_chunks_sent) with
    | error e => simp [shutdown, hstop, hls] at h
    | ok l =>
      constructor
      · simp [shutdown, hstop, hls, FeedbackLogger.close]
      · simpa [shutdown, hstop, hls] using ha

theorem shutdown_on_closed (w : World) (hf : w.logger.fileOpen = false)
    (hs : w.audio.stream = none ∨ w.audio.stream = some { isOpen := false }) :
    ((shutdown w).2).isSome = true ∧ (shutdown w).1.logger = w.logger := by
  rcases hs with hs | hs
  · simp [shutdown, AudioStream.stop, hs, log_stats, logLine, hf]
  · simp [shutdown, AudioStream.stop, hs]

/-- Counterexample to claim C4 as stated: from a healthy running session the
    first `shutdown` succeeds, but a second call raises (PortAudio
    `stop_stream` on the already-closed stream) instead of being
    exception-free. -/
theorem C4_counterexample :
    (shutdown worldHealthy).2 = none ∧
    (shutdown (shutdown worldHealthy).1).2 = some Err.streamClosed :=
  ⟨rfl, rfl⟩

/-- Claim C4 (amended): `shutdown` is not re-entrant without error — after
    any successful `shutdown`, a second call raises (stopping the
    already-closed pyaudio stream, or failing that, writing stats to the
    closed log file); the log content is nevertheless unchanged by the
    second call, so no duplicate stats block is written. -/
theorem C4_second_shutdown_raises (w : World)
    (h : (shutdown w).2 = none) :
    ((shutdown (shutdown w).1).2).isSome = true ∧
    (shutdown (shutdown w).1).1.logger = (shutdown w).1.logger := by
  obtain ⟨hf, hs⟩ := shutdown_ok_post w h
  exact shutdown_on_closed (shutdown w).1 hf hs

/-- Witness for the amended C4 at the healthy session: the first call
    succeeds, the second raises and appends nothing. -/
theorem C4_second_shutdown_raises_witness :
    (shutdown worldHealthy).2 = none ∧
    ((shutdown (shutdown worldHealthy).1).2).isSome = true ∧
    (shutdown (shutdown worldHealthy).1).1.logger
      = (shutdown worldHealthy).1.logger :=
  ⟨rfl, (C4_second_shutdown_raises worldHealthy rfl).1,
   (C4_second_shutdown_raises worldHealthy rfl).2⟩
